import Mathlib

/-
  Verification of the 1lang1server c-server request-processing core.

  The embedded functions follow `HTTPServer.c`: `launch`,
  `request_handler` (with its static-file branch and reverse-proxy
  branch split out as the Static Responder and Proxy Responder the
  design document describes) and `connect_to_backend`.  Operating-system
  effects (file access, socket calls, recv) are passed in as explicit
  oracle values so that each C control path corresponds to a value of
  the oracle.
-/

set_option maxRecDepth 10000

/-- Modelled from the spec (§3): the HTTPRequest record built by the parser
(`server.h` is not part of the sources): method token, path starting with
a slash, body bytes and the body length field used for proxy framing. -/
structure HTTPRequest where
  method : String
  path : String
  body : String
  body_length : Nat
deriving DecidableEq

/-- Modelled from the spec (§3): the HTTPResponse record: status code,
status text and body. -/
structure HTTPResponse where
  status_code : Nat
  status_text : String
  body : String
deriving DecidableEq

/-- Modelled from the spec: `response_builder` (implementation not under
`src/`) packages a status code, status text and body into an HTTPResponse. -/
def response_builder (code : Nat) (text : String) (body : String) : HTTPResponse :=
  ⟨code, text, body⟩

/-- Configuration constants that live in `server.h` (not under `src/`):
`realpath(BASE_DIR, NULL)` as a string, `MAX_BUFFER_SIZE`, and `PATH_MAX`.
They are kept abstract parameters so no concrete value is baked in. -/
structure Config where
  basedir : String
  maxBuf : Nat
  pathMax : Nat

/-- The view the filesystem oracle gives of one absolute path:
whether the file exists, whether it is readable (POSIX `access(p, R_OK)`
succeeds exactly when the file exists and is readable), whether
`open(p, O_RDONLY)` succeeds, and the file contents. -/
structure FileView where
  fexists : Bool
  readable : Bool
  openOk : Bool
  contents : String
deriving DecidableEq

/-- Per-request oracle for the system calls `request_handler` makes:
the two `snprintf` calls returning a negative value (an output error),
the three steps of `connect_to_backend` succeeding, and the result of the
single `recv` from the backend (`none` models a negative return). -/
structure RequestEnv where
  staticFmtError : Bool
  proxyFmtError : Bool
  getaddrinfoOk : Bool
  socketOk : Bool
  connectOk : Bool
  recvResult : Option String
deriving DecidableEq

/-- Which responder `request_handler` dispatched to; the proxy case
carries the forwarded path (`api_path` in the C code). -/
inductive Route where
  | rstatic : Route
  | rproxy : String → Route
  | notFound : Route
deriving DecidableEq

/-- Observable side effects of one `request_handler` call:
the chosen route, whether `connect_to_backend` was called, the buffer and
byte count handed to `send` (`none` when `send` was never reached), and
whether the backend socket was opened / closed before returning. -/
structure Trace where
  route : Route
  connAttempted : Bool
  sent : Option (String × Nat)
  backendOpened : Bool
  backendClosed : Bool
deriving DecidableEq

/-- `AF_INET` (IPv4) as used by `connect_to_backend`. -/
def AF_INET : Nat := 2

/-- `SOCK_STREAM` (TCP) as used by `connect_to_backend`. -/
def SOCK_STREAM : Nat := 1

/-- The `addrinfo` hints fields that `connect_to_backend` fills in. -/
structure AddrInfoHints where
  ai_family : Nat
  ai_socktype : Nat
deriving DecidableEq

/-- The hints struct built by `connect_to_backend`: it zeroes the struct and
sets `ai_family = AF_INET`, `ai_socktype = SOCK_STREAM` before calling
`getaddrinfo`. -/
def connect_hints : AddrInfoHints :=
  ⟨AF_INET, SOCK_STREAM⟩

/-- `connect_to_backend(host, port)`: resolves the address (hints restricted
to IPv4/stream), creates a socket, connects; each failing step returns `-1`
(modelled `none`); on success the connected socket is returned
(modelled `some ()`). -/
def connect_to_backend (env : RequestEnv) : Option Unit :=
  if env.getaddrinfoOk then
    if env.socketOk then
      if env.connectOk then some () else none
    else none
  else none

/-- The first token of C's `strtok(s, delims)` with a single delimiter:
leading delimiters are skipped, the token is the next maximal run of
non-delimiter characters, and `NULL` (modelled `none`) is returned when the
string contains only delimiters. `request_handler` calls
`strtok(path, "/")` once. -/
def strtok_first (s : String) (d : Char) : Option String :=
  match s.data.dropWhile (fun c => c = d) with
  | [] => none
  | l => some (String.mk (l.takeWhile (fun c => c ≠ d)))

/-- The file path the static branch formats with
`snprintf(filepath, PATH_MAX, "%s/%s", realpath(BASE_DIR, NULL), path)`:
base directory, a slash, then the full request path, truncated to
`PATH_MAX - 1` characters. -/
def static_filepath (cfg : Config) (path : String) : String :=
  String.mk ((cfg.basedir.data ++ '/' :: path.data).take (cfg.pathMax - 1))

/-- The static-file branch of `request_handler` (the Static Responder):
a negative `snprintf` gives 404 with a diagnostic body; a failing
`access(filepath, R_OK)` gives 403; a failing `open` gives 404; otherwise
one bounded `read` of at most `MAX_BUFFER_SIZE` bytes is answered with 200.
The C code leaves the read buffer without a terminator; the model idealises
the buffer as exactly the bytes read. -/
def static_responder (cfg : Config) (env : RequestEnv) (fs : String → FileView)
    (req : HTTPRequest) : HTTPResponse × Trace :=
  if env.staticFmtError then
    (response_builder 404 "Not Found" "<h1>snprintf() error</h1>",
     ⟨Route.rstatic, false, none, false, false⟩)
  else
    let fv := fs (static_filepath cfg req.path)
    if fv.fexists && fv.readable then
      if fv.openOk then
        (response_builder 200 "OK" (String.mk (fv.contents.data.take cfg.maxBuf)),
         ⟨Route.rstatic, false, none, false, false⟩)
      else
        (response_builder 404 "Not Found" "<h1>404 Not Found</h1>",
         ⟨Route.rstatic, false, none, false, false⟩)
    else
      (response_builder 403 "Forbidden" "<h1>403 Forbidden</h1>",
       ⟨Route.rstatic, false, none, false, false⟩)

/-- The forwarded path of the proxy branch:
`api_path = request_ptr->path + strlen("/api")`, and when that leaves the
empty string, `api_path = "/"`.  Pointer arithmetic drops the first four
characters of the original path unconditionally. -/
def api_forward_path (path : String) : String :=
  let r := String.mk (path.data.drop 4)
  if r.data = [] then "/" else r

/-- The outbound header block the proxy branch formats with `snprintf`:
request line with the forwarded path, `Host`, `Content-Length` set to the
inbound `body_length`, `Connection: close`, blank line. -/
def proxy_headers (method : String) (apiPath : String) (bodyLen : Nat) : String :=
  method ++ " " ++ apiPath ++ " HTTP/1.1\r\n" ++
  "Host: localhost\r\n" ++
  "Content-Length: " ++ toString bodyLen ++ "\r\n" ++
  "Connection: close\r\n" ++
  "\r\n"

/-- The `\r\n\r\n` header/body separator. -/
def sepChars : List Char := ['\r', '\n', '\r', '\n']

/-- `strstr(reply, "\r\n\r\n")` followed by the `body += 4` step of the
proxy branch: `some rest` is everything after the first occurrence of the
separator, `none` means the separator does not occur. -/
def strstr_after_sep : List Char → Option (List Char)
  | [] => none
  | c :: cs =>
    if (c :: cs).take 4 = sepChars then some ((c :: cs).drop 4)
    else strstr_after_sep cs

/-- The reverse-proxy branch of `request_handler` (the Proxy Responder),
step for step: build the outbound headers (negative `snprintf` gives 500),
`strncat` the inbound body onto the fixed buffer (the `snprintf` part of the
buffer holds at most `MAX_BUFFER_SIZE - 1` characters), connect to the
backend (failure gives 502 Backend Unavailable), `send` the buffer with the
`snprintf` return value as the byte count, `recv` one bounded chunk
(a negative return gives 502 without reaching `close`), close the socket,
split the reply at the first `\r\n\r\n` (taking the whole reply when there
is none) and answer 200 with that body. -/
def proxy_responder (cfg : Config) (env : RequestEnv)
    (req : HTTPRequest) : HTTPResponse × Trace :=
  let api_path := api_forward_path req.path
  let hdrs := proxy_headers req.method api_path req.body_length
  if env.proxyFmtError then
    (response_builder 500 "Internal Server Error" "<h1>proxy snprintf() error</h1>",
     ⟨Route.rproxy api_path, false, none, false, false⟩)
  else
    let proxy_request :=
      String.mk (hdrs.data.take (cfg.maxBuf - 1) ++ req.body.data.take req.body_length)
    match connect_to_backend env with
    | none =>
      (response_builder 502 "Bad Gateway" "<h1>502 Bad Gateway: Backend Unavailable</h1>",
       ⟨Route.rproxy api_path, true, none, false, false⟩)
    | some _ =>
      let sent := some (proxy_request, hdrs.length)
      match env.recvResult with
      | none =>
        (response_builder 502 "Bad Gateway" "<h1>502 Bad Gateway: Failed to Read from Backend</h1>",
         ⟨Route.rproxy api_path, true, sent, true, false⟩)
      | some reply =>
        let body :=
          match strstr_after_sep reply.data with
          | none => reply
          | some rest => String.mk rest
        (response_builder 200 "OK" body,
         ⟨Route.rproxy api_path, true, sent, true, true⟩)

/-- `request_handler`: takes the first `strtok` token of the path;
token `"static"` goes to the static branch, token `"api"` to the proxy
branch, any other token — and a path with no token at all — yields the
fixed 404 response. -/
def request_handler (cfg : Config) (env : RequestEnv) (fs : String → FileView)
    (req : HTTPRequest) : HTTPResponse × Trace :=
  match strtok_first req.path '/' with
  | none =>
    (response_builder 404 "Not Found" "<h1>404 Not Found</h1>",
     ⟨Route.notFound, false, none, false, false⟩)
  | some tok =>
    if tok = "static" then static_responder cfg env fs req
    else if tok = "api" then proxy_responder cfg env req
    else
      (response_builder 404 "Not Found" "<h1>404 Not Found</h1>",
       ⟨Route.notFound, false, none, false, false⟩)

/-- Result of `launch`: the early returns `SOCKET_BIND_ERROR` and
`SOCKET_LISTEN_ERROR` (error codes from `server.h`, not under `src/`,
modelled from the spec as distinct constructors), or reaching the
`while (1)` accept loop. -/
inductive LaunchResult where
  | SOCKET_BIND_ERROR : LaunchResult
  | SOCKET_LISTEN_ERROR : LaunchResult
  | enteredServeLoop : LaunchResult
deriving DecidableEq

/-- Oracle for the two startup system calls of `launch`. -/
structure LaunchEnv where
  bindOk : Bool
  listenOk : Bool
deriving DecidableEq

/-- `launch`: a failing `bind` returns `SOCKET_BIND_ERROR` at once, a
failing `listen` returns `SOCKET_LISTEN_ERROR`, and only when both succeed
does control reach the accept loop. -/
def launch (env : LaunchEnv) : LaunchResult :=
  if env.bindOk then
    if env.listenOk then LaunchResult.enteredServeLoop
    else LaunchResult.SOCKET_LISTEN_ERROR
  else LaunchResult.SOCKET_BIND_ERROR

/-- The spec's notion of the first path segment (§4.2): the portion of the
path between the leading slash and the next slash; `none` when the path
does not start with a slash (an unparseable path). -/
def firstSegment_spec (path : String) : Option String :=
  match path.data with
  | '/' :: rest => some (String.mk (rest.takeWhile (fun c => c ≠ '/')))
  | _ => none

/-- The forwarding rule as the routing claim words it: the leading
`"/api"` is stripped and an empty remainder becomes `"/"`; a path not of
that shape is kept unchanged. -/
def stripApiPrefix_spec (path : String) : String :=
  match path.data with
  | '/' :: 'a' :: 'p' :: 'i' :: rest => if rest = [] then "/" else String.mk rest
  | _ => path

/-- The routing claim as stated: dispatch is decided by the first path
segment (spec definition) alone — `"static"` to the static responder,
`"api"` to the proxy with the `"/api"` prefix stripped, any other segment
or an unparseable path to the fixed 404 response. -/
def Claim1Statement : Prop :=
  ∀ (cfg : Config) (env : RequestEnv) (fs : String → FileView) (req : HTTPRequest),
    (firstSegment_spec req.path = some "static" →
      (request_handler cfg env fs req).2.route = Route.rstatic) ∧
    (firstSegment_spec req.path = some "api" →
      (request_handler cfg env fs req).2.route =
        Route.rproxy (stripApiPrefix_spec req.path)) ∧
    (∀ s, firstSegment_spec req.path = some s → s ≠ "static" → s ≠ "api" →
      (request_handler cfg env fs req).1 =
        response_builder 404 "Not Found" "<h1>404 Not Found</h1>") ∧
    (firstSegment_spec req.path = none →
      (request_handler cfg env fs req).1 =
        response_builder 404 "Not Found" "<h1>404 Not Found</h1>")

/-- The separator `\r\n\r\n` occurs in `l` at position `i`. -/
def isSepAt (l : List Char) (i : Nat) : Prop :=
  (l.drop i).take 4 = sepChars

instance (l : List Char) (i : Nat) : Decidable (isSepAt l i) := by
  unfold isSepAt
  infer_instance

theorem isSepAt_lt (l : List Char) (i : Nat) (h : isSepAt l i) : i < l.length := by
  unfold isSepAt at h
  have hlen := congrArg List.length h
  simp [sepChars] at hlen
  omega

theorem not_isSepAt_all (l : List Char) (h : ∀ j, j < l.length → ¬ isSepAt l j) :
    ∀ j, ¬ isSepAt l j := by
  intro j hj
  rcases Nat.lt_or_ge j l.length with hlt | hge
  · exact h j hlt hj
  · exact absurd (isSepAt_lt _ _ hj) (by omega)

theorem strstr_after_sep_eq_some (l : List Char) (i : Nat)
    (hi : isSepAt l i) (hfirst : ∀ j, j < i → ¬ isSepAt l j) :
    strstr_after_sep l = some (l.drop (i + 4)) := by
  induction l generalizing i with
  | nil => exact absurd (isSepAt_lt _ _ hi) (by simp)
  | cons c cs ih =>
    unfold strstr_after_sep
    cases i with
    | zero =>
      unfold isSepAt at hi
      rw [List.drop_zero] at hi
      rw [if_pos hi]
    | succ n =>
      have h0 : ¬ ((c :: cs).take 4 = sepChars) := by
        have := hfirst 0 (Nat.succ_pos n)
        unfold isSepAt at this
        rwa [List.drop_zero] at this
      rw [if_neg h0]
      have hi' : isSepAt cs n := by
        unfold isSepAt at hi ⊢
        simpa using hi
      have hfirst' : ∀ j, j < n → ¬ isSepAt cs j := by
        intro j hj hsep
        refine hfirst (j + 1) (by omega) ?_
        unfold isSepAt at hsep ⊢
        simpa using hsep
      rw [ih n hi' hfirst']
      rfl

theorem strstr_after_sep_eq_none (l : List Char)
    (h : ∀ j, ¬ isSepAt l j) : strstr_after_sep l = none := by
  induction l with
  | nil => rfl
  | cons c cs ih =>
    unfold strstr_after_sep
    have h0 : ¬ ((c :: cs).take 4 = sepChars) := by
      have := h 0
      unfold isSepAt at this
      rwa [List.drop_zero] at this
    rw [if_neg h0]
    refine ih ?_
    intro j hj
    refine h (j + 1) ?_
    unfold isSepAt at hj ⊢
    simpa using hj

theorem connect_to_backend_ok (env : RequestEnv) (h1 : env.getaddrinfoOk = true)
    (h2 : env.socketOk = true) (h3 : env.connectOk = true) :
    connect_to_backend env = some () := by
  simp [connect_to_backend, h1, h2, h3]

theorem connect_to_backend_fail (env : RequestEnv)
    (h : env.getaddrinfoOk = false ∨ env.socketOk = false ∨ env.connectOk = false) :
    connect_to_backend env = none := by
  cases h1 : env.getaddrinfoOk <;> cases h2 : env.socketOk <;> cases h3 : env.connectOk <;>
    simp_all [connect_to_backend]

theorem request_handler_static (cfg : Config) (env : RequestEnv)
    (fs : String → FileView) (req : HTTPRequest)
    (htok : strtok_first req.path '/' = some "static") :
    request_handler cfg env fs req = static_responder cfg env fs req := by
  simp [request_handler, htok]

theorem request_handler_api (cfg : Config) (env : RequestEnv)
    (fs : String → FileView) (req : HTTPRequest)
    (htok : strtok_first req.path '/' = some "api") :
    request_handler cfg env fs req = proxy_responder cfg env req := by
  simp [request_handler, htok]

theorem request_handler_other (cfg : Config) (env : RequestEnv)
    (fs : String → FileView) (req : HTTPRequest) (seg : String)
    (htok : strtok_first req.path '/' = some seg)
    (h1 : seg ≠ "static") (h2 : seg ≠ "api") :
    request_handler cfg env fs req =
      (response_builder 404 "Not Found" "<h1>404 Not Found</h1>",
       ⟨Route.notFound, false, none, false, false⟩) := by
  simp [request_handler, htok, h1, h2]

theorem request_handler_none (cfg : Config) (env : RequestEnv)
    (fs : String → FileView) (req : HTTPRequest)
    (htok : strtok_first req.path '/' = none) :
    request_handler cfg env fs req =
      (response_builder 404 "Not Found" "<h1>404 Not Found</h1>",
       ⟨Route.notFound, false, none, false, false⟩) := by
  simp [request_handler, htok]

theorem static_responder_route (cfg : Config) (env : RequestEnv)
    (fs : String → FileView) (req : HTTPRequest) :
    (static_responder cfg env fs req).2.route = Route.rstatic := by
  unfold static_responder
  split
  · rfl
  · dsimp only
    split
    · split <;> rfl
    · rfl

theorem proxy_responder_route (cfg : Config) (env : RequestEnv) (req : HTTPRequest) :
    (proxy_responder cfg env req).2.route = Route.rproxy (api_forward_path req.path) := by
  unfold proxy_responder
  dsimp only
  split
  · rfl
  · split
    · rfl
    · split <;> rfl

/-- C1 (counterexample): the routing claim as stated is false. For the
parsed path "//api/x" the first path segment — the portion between the
leading slash and the next slash — is the empty string, so the claim
requires the fixed 404 response; but `request_handler` tokenises with
`strtok`, which skips the repeated slash, and dispatches to the proxy
branch instead (answering 502 when the backend is unreachable). -/
theorem claim1_counterexample : ¬ Claim1Statement := by
  intro h
  have hc := (h ⟨"/root", 1024, 4096⟩ ⟨false, false, false, false, false, none⟩
      (fun _ => ⟨false, false, false, ""⟩) ⟨"GET", "//api/x", "", 0⟩).2.2.1
  have h404 := hc "" (by decide) (by decide) (by decide)
  exact absurd h404 (by decide)

/-- C1 (amended): `request_handler` dispatches on the first `strtok`
token of the path (repeated slashes are skipped): token `"static"` goes to
the static responder; token `"api"` goes to the proxy responder with the
forwarded path obtained by dropping the first four characters of the
original path (an empty remainder becomes "/"), which equals the path with
the "/api" prefix stripped whenever the path begins with "/api"; any other
token, or a path with no token, yields the fixed 404 response with body
"<h1>404 Not Found</h1>". -/
theorem claim1_amended_routing (cfg : Config) (env : RequestEnv)
    (fs : String → FileView) (req : HTTPRequest) :
    (strtok_first req.path '/' = some "static" →
      (request_handler cfg env fs req).2.route = Route.rstatic) ∧
    (strtok_first req.path '/' = some "api" →
      (request_handler cfg env fs req).2.route =
        Route.rproxy (api_forward_path req.path)) ∧
    (∀ s, strtok_first req.path '/' = some s → s ≠ "static" → s ≠ "api" →
      (request_handler cfg env fs req).1 =
        response_builder 404 "Not Found" "<h1>404 Not Found</h1>" ∧
      (request_handler cfg env fs req).2.route = Route.notFound) ∧
    (strtok_first req.path '/' = none →
      (request_handler cfg env fs req).1 =
        response_builder 404 "Not Found" "<h1>404 Not Found</h1>" ∧
      (request_handler cfg env fs req).2.route = Route.notFound) := by
  refine ⟨fun htok => ?_, fun htok => ?_, fun s htok h1 h2 => ?_, fun htok => ?_⟩
  · rw [request_handler_static cfg env fs req htok]
    exact static_responder_route cfg env fs req
  · rw [request_handler_api cfg env fs req htok]
    exact proxy_responder_route cfg env req
  · rw [request_handler_other cfg env fs req s htok h1 h2]
    exact ⟨rfl, rfl⟩
  · rw [request_handler_none cfg env fs req htok]
    exact ⟨rfl, rfl⟩

/-- C1 (witness): the request for "/api/x" is dispatched to the proxy
responder with forwarded path "/x". -/
theorem claim1_amended_routing_witness :
    (request_handler ⟨"/root", 1024, 4096⟩
        ⟨false, false, true, true, true, some "HTTP/1.1 200 OK\r\n\r\nok"⟩
        (fun _ => ⟨false, false, false, ""⟩)
        ⟨"GET", "/api/x", "", 0⟩).2.route = Route.rproxy "/x" :=
  ((claim1_amended_routing ⟨"/root", 1024, 4096⟩
      ⟨false, false, true, true, true, some "HTTP/1.1 200 OK\r\n\r\nok"⟩
      (fun _ => ⟨false, false, false, ""⟩)
      ⟨"GET", "/api/x", "", 0⟩).2.1 (by decide)).trans (by decide)

/-- C2: the claim says a missing file under /static yields 404, but the
code checks `access(filepath, R_OK)` before `open`, and `access` fails for
a nonexistent path as well, so a missing file is answered 403 Forbidden
(first conjunct, the failing input); an existing unreadable file is also
answered 403 (second conjunct, the half of the claim the code meets).
404 is only reachable when `access` succeeds and `open` then fails. -/
theorem claim2_static_missing_file_gets_403 :
    (request_handler ⟨"/root", 1024, 4096⟩ ⟨false, false, false, false, false, none⟩
        (fun _ => ⟨false, false, false, ""⟩)
        ⟨"GET", "/static/missing.html", "", 0⟩).1 =
      response_builder 403 "Forbidden" "<h1>403 Forbidden</h1>" ∧
    (request_handler ⟨"/root", 1024, 4096⟩ ⟨false, false, false, false, false, none⟩
        (fun _ => ⟨true, false, false, "secret"⟩)
        ⟨"GET", "/static/secret.html", "", 0⟩).1 =
      response_builder 403 "Forbidden" "<h1>403 Forbidden</h1>" := by
  decide

/-- C8: a failing `bind` makes `launch` return `SOCKET_BIND_ERROR`, and a
failing `listen` (after a successful bind) makes it return
`SOCKET_LISTEN_ERROR`; in both cases the accept loop is never entered and
the error code is returned to the caller in a single attempt. -/
theorem claim8_launch_bind_listen_errors (env : LaunchEnv) :
    (env.bindOk = false →
      launch env = LaunchResult.SOCKET_BIND_ERROR ∧
      launch env ≠ LaunchResult.enteredServeLoop) ∧
    (env.bindOk = true → env.listenOk = false →
      launch env = LaunchResult.SOCKET_LISTEN_ERROR ∧
      launch env ≠ LaunchResult.enteredServeLoop) := by
  obtain ⟨b, l⟩ := env
  cases b <;> cases l <;> simp [launch]

/-- C8 (witness): concrete bind and listen failures. -/
theorem claim8_launch_bind_listen_errors_witness :
    launch ⟨false, false⟩ = LaunchResult.SOCKET_BIND_ERROR ∧
    launch ⟨true, false⟩ = LaunchResult.SOCKET_LISTEN_ERROR :=
  ⟨((claim8_launch_bind_listen_errors ⟨false, false⟩).1 rfl).1,
   ((claim8_launch_bind_listen_errors ⟨true, false⟩).2 rfl rfl).1⟩

/-- C3: whenever the proxy branch connects and the `recv` from the backend
succeeds, the response has status 200 with text "OK" regardless of the
status line the backend sent, and the body is everything in the backend
reply after the first occurrence of the "\r\n\r\n" header/body separator
(position `i` below); the backend headers are discarded. -/
theorem claim3_proxy_success_is_200_with_body_after_sep
    (cfg : Config) (env : RequestEnv) (fs : String → FileView) (req : HTTPRequest)
    (reply : String) (i : Nat)
    (htok : strtok_first req.path '/' = some "api")
    (hfmt : env.proxyFmtError = false)
    (hres : env.getaddrinfoOk = true) (hsock : env.socketOk = true)
    (hcn : env.connectOk = true)
    (hrecv : env.recvResult = some reply)
    (hsep : isSepAt reply.data i)
    (hfirst : ∀ j, j < i → ¬ isSepAt reply.data j) :
    (request_handler cfg env fs req).1 =
      response_builder 200 "OK" (String.mk (reply.data.drop (i + 4))) := by
  rw [request_handler_api cfg env fs req htok]
  unfold proxy_responder
  rw [hfmt, connect_to_backend_ok env hres hsock hcn, hrecv]
  simp [strstr_after_sep_eq_some reply.data i hsep hfirst]

/-- C3 (witness): the spec scenario — the backend answers
"HTTP/1.1 201 Created" with body the JSON object, and the proxy reports
200 "OK" with exactly that body (the 201 is not propagated). -/
theorem claim3_proxy_success_is_200_with_body_after_sep_witness :
    (request_handler ⟨"/root", 1024, 4096⟩
        ⟨false, false, true, true, true,
          some "HTTP/1.1 201 Created\r\n\r\n\x7b\"id\":1\x7d"⟩
        (fun _ => ⟨false, false, false, ""⟩)
        ⟨"GET", "/api/widgets", "", 0⟩).1 =
      response_builder 200 "OK" "\x7b\"id\":1\x7d" :=
  (claim3_proxy_success_is_200_with_body_after_sep
    ⟨"/root", 1024, 4096⟩
    ⟨false, false, true, true, true,
      some "HTTP/1.1 201 Created\r\n\r\n\x7b\"id\":1\x7d"⟩
    (fun _ => ⟨false, false, false, ""⟩)
    ⟨"GET", "/api/widgets", "", 0⟩
    "HTTP/1.1 201 Created\r\n\r\n\x7b\"id\":1\x7d" 20
    (by decide) rfl rfl rfl rfl rfl (by decide) (by decide)).trans (by decide)

/-- C9: whenever the proxy branch connects, the `recv` succeeds, and the
backend reply contains no "\r\n\r\n" separator at any position, the entire
reply (not the empty string) is used as the body of the 200 response. -/
theorem claim9_no_separator_whole_reply_is_body
    (cfg : Config) (env : RequestEnv) (fs : String → FileView) (req : HTTPRequest)
    (reply : String)
    (htok : strtok_first req.path '/' = some "api")
    (hfmt : env.proxyFmtError = false)
    (hres : env.getaddrinfoOk = true) (hsock : env.socketOk = true)
    (hcn : env.connectOk = true)
    (hrecv : env.recvResult = some reply)
    (hnosep : ∀ j, ¬ isSepAt reply.data j) :
    (request_handler cfg env fs req).1 = response_builder 200 "OK" reply := by
  rw [request_handler_api cfg env fs req htok]
  unfold proxy_responder
  rw [hfmt, connect_to_backend_ok env hres hsock hcn, hrecv]
  simp [strstr_after_sep_eq_none reply.data hnosep]

/-- C9 (witness): a separator-free backend reply "hello" becomes the whole
body of the 200 response. -/
theorem claim9_no_separator_whole_reply_is_body_witness :
    (request_handler ⟨"/root", 1024, 4096⟩
        ⟨false, false, true, true, true, some "hello"⟩
        (fun _ => ⟨false, false, false, ""⟩)
        ⟨"GET", "/api/x", "", 0⟩).1 =
      response_builder 200 "OK" "hello" :=
  claim9_no_separator_whole_reply_is_body
    ⟨"/root", 1024, 4096⟩
    ⟨false, false, true, true, true, some "hello"⟩
    (fun _ => ⟨false, false, false, ""⟩)
    ⟨"GET", "/api/x", "", 0⟩
    "hello" (by decide) rfl rfl rfl rfl rfl
    (not_isSepAt_all _ (by decide))

/-- C6: when a request is routed to the proxy branch and any of the three
steps of `connect_to_backend` fails (address resolution, socket creation,
or connect), the response is 502 with the Backend Unavailable body; the
connection attempt is made for this request, and the resolution hints are
fixed to IPv4 (`AF_INET`) stream (`SOCK_STREAM`) sockets. -/
theorem claim6_backend_unreachable_gives_502
    (cfg : Config) (env : RequestEnv) (fs : String → FileView) (req : HTTPRequest)
    (htok : strtok_first req.path '/' = some "api")
    (hfmt : env.proxyFmtError = false)
    (hfail : env.getaddrinfoOk = false ∨ env.socketOk = false ∨ env.connectOk = false) :
    (request_handler cfg env fs req).1 =
      response_builder 502 "Bad Gateway" "<h1>502 Bad Gateway: Backend Unavailable</h1>" ∧
    (request_handler cfg env fs req).2.connAttempted = true ∧
    connect_hints.ai_family = AF_INET ∧ connect_hints.ai_socktype = SOCK_STREAM := by
  rw [request_handler_api cfg env fs req htok]
  unfold proxy_responder
  rw [hfmt, connect_to_backend_fail env hfail]
  exact ⟨rfl, rfl, rfl, rfl⟩

/-- C6 (witness): a failing connect on the path "/api/widgets" yields the
502 Backend Unavailable response. -/
theorem claim6_backend_unreachable_gives_502_witness :
    (request_handler ⟨"/root", 1024, 4096⟩
        ⟨false, false, true, true, false, none⟩
        (fun _ => ⟨false, false, false, ""⟩)
        ⟨"GET", "/api/widgets", "", 0⟩).1 =
      response_builder 502 "Bad Gateway" "<h1>502 Bad Gateway: Backend Unavailable</h1>" :=
  (claim6_backend_unreachable_gives_502
    ⟨"/root", 1024, 4096⟩
    ⟨false, false, true, true, false, none⟩
    (fun _ => ⟨false, false, false, ""⟩)
    ⟨"GET", "/api/widgets", "", 0⟩
    (by decide) rfl (Or.inr (Or.inr rfl))).1

/-- C7: when a request is routed to the static branch and the resolved
file exists, is readable, and opens, the response is 200 with body the
file contents truncated to the configured maximum buffer size
(larger files are silently cut at `MAX_BUFFER_SIZE`). -/
theorem claim7_static_readable_file_gives_200_truncated
    (cfg : Config) (env : RequestEnv) (fs : String → FileView) (req : HTTPRequest)
    (htok : strtok_first req.path '/' = some "static")
    (hfmt : env.staticFmtError = false)
    (hex : (fs (static_filepath cfg req.path)).fexists = true)
    (hrd : (fs (static_filepath cfg req.path)).readable = true)
    (hop : (fs (static_filepath cfg req.path)).openOk = true) :
    (request_handler cfg env fs req).1 =
      response_builder 200 "OK"
        (String.mk ((fs (static_filepath cfg req.path)).contents.data.take cfg.maxBuf)) := by
  rw [request_handler_static cfg env fs req htok]
  unfold static_responder
  rw [hfmt]
  simp [hex, hrd, hop]

/-- C7 (witness): the spec scenario — "/static/index.html" whose file
holds "<p>hi</p>" is answered 200 with exactly that body. -/
theorem claim7_static_readable_file_gives_200_truncated_witness :
    (request_handler ⟨"/root", 1024, 4096⟩
        ⟨false, false, false, false, false, none⟩
        (fun _ => ⟨true, true, true, "<p>hi</p>"⟩)
        ⟨"GET", "/static/index.html", "", 0⟩).1 =
      response_builder 200 "OK" "<p>hi</p>" :=
  (claim7_static_readable_file_gives_200_truncated
    ⟨"/root", 1024, 4096⟩
    ⟨false, false, false, false, false, none⟩
    (fun _ => ⟨true, true, true, "<p>hi</p>"⟩)
    ⟨"GET", "/static/index.html", "", 0⟩
    (by decide) rfl rfl rfl rfl).trans (by decide)

/-- C10: segment comparison is exact and case-sensitive: a first `strtok`
token that agrees with "static" or "api" up to letter case but is not
exactly equal to either is answered with the fixed 404 response and never
reaches the static or proxy responder. -/
theorem claim10_case_variant_segment_gives_404
    (cfg : Config) (env : RequestEnv) (fs : String → FileView) (req : HTTPRequest)
    (seg : String)
    (htok : strtok_first req.path '/' = some seg)
    (_hcase : seg.data.map Char.toLower = ("static" : String).data ∨
             seg.data.map Char.toLower = ("api" : String).data)
    (h1 : seg ≠ "static") (h2 : seg ≠ "api") :
    (request_handler cfg env fs req).1 =
      response_builder 404 "Not Found" "<h1>404 Not Found</h1>" ∧
    (request_handler cfg env fs req).2.route = Route.notFound := by
  rw [request_handler_other cfg env fs req seg htok h1 h2]
  exact ⟨rfl, rfl⟩

/-- C10 (witness): "/Static/f" — same letters as "static" up to case — is
answered 404. -/
theorem claim10_case_variant_segment_gives_404_witness :
    (request_handler ⟨"/root", 1024, 4096⟩
        ⟨false, false, false, false, false, none⟩
        (fun _ => ⟨true, true, true, "x"⟩)
        ⟨"GET", "/Static/f", "", 0⟩).1 =
      response_builder 404 "Not Found" "<h1>404 Not Found</h1>" :=
  (claim10_case_variant_segment_gives_404
    ⟨"/root", 1024, 4096⟩
    ⟨false, false, false, false, false, none⟩
    (fun _ => ⟨true, true, true, "x"⟩)
    ⟨"GET", "/Static/f", "", 0⟩
    "Static" (by decide) (Or.inl (by decide)) (by decide) (by decide)).1

/-- C4: the claim says the full outbound buffer (headers and body) is sent
in one write, but `send` is passed `proxy_request_len`, the `snprintf`
return value measured before `strncat` appends the body. On the failing
input — POST "/api/x" with the five-byte body "hello" — the buffer handed
to `send` does hold headers followed by "hello" (first conjunct), the byte
count handed to `send` is the header length alone (same conjunct), and the
bytes actually written, the buffer cut to that count, are exactly the
headers: the body is never sent (second conjunct). -/
theorem claim4_send_omits_appended_body :
    (request_handler ⟨"/root", 1024, 4096⟩
        ⟨false, false, true, true, true, some "HTTP/1.1 200 OK\r\n\r\nok"⟩
        (fun _ => ⟨false, false, false, ""⟩)
        ⟨"POST", "/api/x", "hello", 5⟩).2.sent =
      some ("POST /x HTTP/1.1\r\nHost: localhost\r\nContent-Length: 5\r\nConnection: close\r\n\r\n" ++ "hello",
        ("POST /x HTTP/1.1\r\nHost: localhost\r\nContent-Length: 5\r\nConnection: close\r\n\r\n" : String).length) ∧
    (("POST /x HTTP/1.1\r\nHost: localhost\r\nContent-Length: 5\r\nConnection: close\r\n\r\n" ++ "hello" : String).data.take
        ("POST /x HTTP/1.1\r\nHost: localhost\r\nContent-Length: 5\r\nConnection: close\r\n\r\n" : String).length =
      ("POST /x HTTP/1.1\r\nHost: localhost\r\nContent-Length: 5\r\nConnection: close\r\n\r\n" : String).data) := by
  decide

/-- C5: the claim says the backend socket is closed on every outcome of the
read, but the 502 early return on a negative `recv` happens before
`close(backend_fd)`. On the failing input — "/api/x" with the backend
connected and `recv` returning a negative value — the socket was opened,
the response is the 502 Failed-to-Read response, and the socket is NOT
closed when the responder returns (first three conjuncts); on a successful
read it is closed (last conjunct). -/
theorem claim5_backend_socket_leaks_on_recv_error :
    (request_handler ⟨"/root", 1024, 4096⟩
        ⟨false, false, true, true, true, none⟩
        (fun _ => ⟨false, false, false, ""⟩)
        ⟨"GET", "/api/x", "", 0⟩).2.backendOpened = true ∧
    (request_handler ⟨"/root", 1024, 4096⟩
        ⟨false, false, true, true, true, none⟩
        (fun _ => ⟨false, false, false, ""⟩)
        ⟨"GET", "/api/x", "", 0⟩).1 =
      response_builder 502 "Bad Gateway" "<h1>502 Bad Gateway: Failed to Read from Backend</h1>" ∧
    (request_handler ⟨"/root", 1024, 4096⟩
        ⟨false, false, true, true, true, none⟩
        (fun _ => ⟨false, false, false, ""⟩)
        ⟨"GET", "/api/x", "", 0⟩).2.backendClosed = false ∧
    (request_handler ⟨"/root", 1024, 4096⟩
        ⟨false, false, true, true, true, some "HTTP/1.1 200 OK\r\n\r\nok"⟩
        (fun _ => ⟨false, false, false, ""⟩)
        ⟨"GET", "/api/x", "", 0⟩).2.backendClosed = true := by
  decide
